import Mathlib

/-!
Verification of the subsnipe resolution pipeline and fingerprint classifier
(src/main.go) against its natural-language specification.

The Go code is shallowly embedded:
  * Go strings become Lean `String`, with `strings.HasSuffix`,
    `strings.TrimSuffix` and `strings.TrimSpace` modelled byte-exactly on the
    underlying character lists (`goHasSuffix`, `goTrimSuffix`, `goTrimSpace`).
  * The fingerprint store is a Go `map[string]map[string]interface{}`.  A Go
    map has no specified iteration order, so a `range` over it is modelled by
    a `List` of entries quantified up to permutation: each list passed to
    `isVulnerableCNAME` is one admissible iteration order of the map.
  * The untyped `interface{}` values inside an entry are modelled by `GoVal`,
    and the unchecked type assertions of `isVulnerableCNAME` by an
    `Option`-valued evaluator (`none` = runtime panic).
  * The goroutine structure of `checkCNAMEs` (semaphore-bounded workers, a
    buffered result channel, one consumer goroutine, `wg.Wait`, `close`,
    `writeResults`) becomes a small-step transition relation `Step` on
    `PState`, with `Reach` its reflexive-transitive closure from `initState`.
-/

/-- Go `strings.HasSuffix s pat`: exact suffix test on the bytes. -/
def goHasSuffix (s pat : String) : Bool :=
  List.isSuffixOf pat.data s.data

/-- Go `strings.TrimSuffix s pat`: removes one trailing occurrence of `pat`
from `s` if present, otherwise returns `s` unchanged. -/
def goTrimSuffix (s pat : String) : String :=
  if goHasSuffix s pat then
    String.mk (s.data.take (s.data.length - pat.data.length))
  else s

/-- Go `strings.TrimSpace`: strips whitespace from both ends. -/
def goTrimSpace (s : String) : String :=
  String.mk (((s.data.dropWhile Char.isWhitespace).reverse.dropWhile
      Char.isWhitespace).reverse)

/-- A well-typed fingerprint entry: the `cname` pattern list and the
`vulnerable` flag, the two fields `isVulnerableCNAME` (src/main.go:251-265)
reads from each `map[string]interface{}` entry. -/
structure Fingerprint where
  cname : List String
  vulnerable : Bool
deriving DecidableEq, Repr

/-- Inner loop of `isVulnerableCNAME` (src/main.go:257-262): scan the
entry's pattern list in stored order, stopping at the first pattern that is
a suffix of the (already trimmed) cname. -/
def scanPatterns (cname : String) : List String → Bool
  | [] => false
  | p :: ps => if goHasSuffix cname p then true else scanPatterns cname ps

/-- Outer loop of `isVulnerableCNAME` (src/main.go:255-263): visit the
fingerprint entries in the given iteration order; the first entry with a
matching pattern decides the verdict `(true, entry.vulnerable)`. -/
def scanFingerprints (cname : String) : List Fingerprint → Bool × Bool
  | [] => (false, false)
  | fp :: rest =>
    if scanPatterns cname fp.cname then (true, fp.vulnerable)
    else scanFingerprints cname rest

/-- `isVulnerableCNAME` (src/main.go:251-265): trim one trailing dot, then
first-match-wins scan over the entries in the given iteration order of the
fingerprint map. -/
def isVulnerableCNAME (cname : String) (fingerprints : List Fingerprint) :
    Bool × Bool :=
  scanFingerprints (goTrimSuffix cname ".") fingerprints

example : goTrimSuffix "shop.myshopify.com." "." = "shop.myshopify.com" := by decide
example : goTrimSuffix "abc" "." = "abc" := by decide
example : goTrimSuffix "abc.." "." = "abc." := by decide
example : isVulnerableCNAME "shop.myshopify.com."
    [⟨["myshopify.com"], true⟩] = (true, true) := by decide
example : isVulnerableCNAME "x.other.net" [⟨["myshopify.com"], true⟩] =
    (false, false) := by decide

/-! ## Untyped model of the fingerprint JSON values

`isVulnerableCNAME` receives `map[string]map[string]interface{}` and applies
the unchecked type assertions `fingerprint["cname"].([]interface{})`,
`c.(string)` and `fingerprint["vulnerable"].(bool)`.  `GoVal` models the
dynamic `interface{}` values, an entry is an association list (a read of a
missing key yields the zero value `vNil`), and the evaluator returns `none`
exactly where Go would panic on a failed assertion. -/

/-- A dynamic Go `interface \x7b\x7d` value as it can appear in the decoded
fingerprint JSON. -/
inductive GoVal where
  | vStr (s : String)
  | vBool (b : Bool)
  | vArr (xs : List GoVal)
  | vNum (n : Int)
  | vNil

/-- Go map read `e[k]`: first binding of `k`, or the zero value `vNil` when
the key is absent. -/
def lookupGo (e : List (String × GoVal)) (k : String) : GoVal :=
  match e.find? (fun p => p.1 == k) with
  | some p => p.2
  | none => GoVal.vNil

/-- Type assertion `.([]interface \x7b\x7d)`: `none` models the panic. -/
def asArr : GoVal → Option (List GoVal)
  | GoVal.vArr xs => some xs
  | _ => none

/-- Type assertion `.(string)`: `none` models the panic. -/
def asStr : GoVal → Option String
  | GoVal.vStr s => some s
  | _ => none

/-- Type assertion `.(bool)`: `none` models the panic. -/
def asBool : GoVal → Option Bool
  | GoVal.vBool b => some b
  | _ => none

/-- Inner loop of `isVulnerableCNAME` on untyped list elements
(src/main.go:257-262): each element is asserted to `string` before the
suffix test; a failed assertion panics (`none`), a match stops the scan. -/
def scanPatternsU (cname : String) : List GoVal → Option Bool
  | [] => some false
  | v :: rest =>
    match asStr v with
    | none => none
    | some p =>
      if goHasSuffix cname p then some true else scanPatternsU cname rest

/-- Outer loop of `isVulnerableCNAME` on untyped entries
(src/main.go:255-263): `fingerprint["cname"]` is asserted to an array when
the entry is visited, `fingerprint["vulnerable"]` to a bool only when one of
its patterns matched. -/
def scanFingerprintsU (cname : String) :
    List (List (String × GoVal)) → Option (Bool × Bool)
  | [] => some (false, false)
  | e :: rest =>
    match asArr (lookupGo e "cname") with
    | none => none
    | some lst =>
      match scanPatternsU cname lst with
      | none => none
      | some true =>
        match asBool (lookupGo e "vulnerable") with
        | none => none
        | some v => some (true, v)
      | some false => scanFingerprintsU cname rest

/-- `isVulnerableCNAME` (src/main.go:251-265) over untyped entries: `none`
models a runtime panic of a type assertion, `some r` normal return. -/
def isVulnerableCNAMEU (cname : String)
    (fingerprints : List (List (String × GoVal))) : Option (Bool × Bool) :=
  scanFingerprintsU (goTrimSuffix cname ".") fingerprints

/-- The shape the classification path implicitly requires of one entry:
`"cname"` bound to an array of strings and `"vulnerable"` to a bool. -/
def wellFormedEntry (e : List (String × GoVal)) : Bool :=
  (match lookupGo e "cname" with
   | GoVal.vArr l =>
     l.all (fun v => match v with | GoVal.vStr _ => true | _ => false)
   | _ => false) &&
  (match lookupGo e "vulnerable" with
   | GoVal.vBool _ => true
   | _ => false)

/-- The typed view of a well-formed untyped entry. -/
def decodeEntry (e : List (String × GoVal)) : Fingerprint :=
  { cname :=
      match lookupGo e "cname" with
      | GoVal.vArr l => l.filterMap asStr
      | _ => []
    vulnerable :=
      match lookupGo e "vulnerable" with
      | GoVal.vBool b => b
      | _ => false }

/-! ## Results, buckets and the classifier -/

/-- `cnameResult` (src/main.go:22-26); `hasErr` records whether the `err`
field is non-nil. -/
structure cnameResult where
  domain : String
  cname : String
  hasErr : Bool
deriving DecidableEq, Repr

/-- The four global bucket slices (src/main.go:29-35):
`isExploitable`, `notExploitable`, `unknownExploitability`, `notFound`. -/
structure Buckets where
  isExploitable : List String
  notExploitable : List String
  unknownExploitability : List String
  notFound : List String
deriving DecidableEq, Repr

def emptyBuckets : Buckets := ⟨[], [], [], []⟩

/-- Total number of bucket entries appended so far. -/
def totalBuckets (b : Buckets) : Nat :=
  b.isExploitable.length + b.notExploitable.length +
    b.unknownExploitability.length + b.notFound.length

/-- Modelled from the spec: `ifThenElse` is called by `processCNAMEResult`
(src/main.go:278,284) but its definition is not under src/; from the call
sites and §4.3 it selects between the two strings by the flag. -/
def ifThenElse (c : Bool) (a b : String) : String :=
  if c then a else b

/-- Modelled from the spec: `appendResultBasedOnVulnerability`
(src/main.go:279,285) is not under src/; §4.3 bucket routing sends a
vulnerable match to Exploitable and a non-vulnerable one to
NotExploitable. -/
def appendResultBasedOnVulnerability (vulnerable : Bool) (msg : String)
    (b : Buckets) : Buckets :=
  if vulnerable then { b with isExploitable := b.isExploitable ++ [msg] }
  else { b with notExploitable := b.notExploitable ++ [msg] }

/-- The service-name fallback (src/main.go:282-283): `extractServiceName`
and `isServiceVulnerable` are not under src/.  Per §4.2 the fallback derives
the second-level-domain label and runs the same first-match-wins search, so
it is kept abstract as a function from the resolved cname and the store's
iteration order to `none` (no service match) or `some (vulnerable,
serviceName)`; every theorem below holds for every such function. -/
def ServiceMatcher : Type :=
  String → List Fingerprint → Option (Bool × String)

/-- `processCNAMEResult` (src/main.go:268-291): the one-step classifier.
Message strings are the exact `fmt.Sprintf` outputs of the source. -/
def processCNAMEResult (result : cnameResult)
    (fingerprints : List Fingerprint) (svc : ServiceMatcher)
    (b : Buckets) : Buckets :=
  if result.hasErr || result.cname == "" then
    { b with notFound :=
        b.notFound ++ ["No CNAME record found for: " ++ result.domain] }
  else
    match isVulnerableCNAME result.cname fingerprints with
    | (directMatch, vulnerable) =>
      if directMatch then
        appendResultBasedOnVulnerability vulnerable
          ("CNAME for " ++ result.domain ++ " is: " ++ result.cname ++
            " (found matching fingerprint - " ++
            ifThenElse vulnerable "vulnerable" "safe" ++ ")") b
      else
        match svc result.cname fingerprints with
        | some (v, service) =>
          appendResultBasedOnVulnerability v
            ("CNAME for " ++ result.domain ++ " is: " ++ result.cname ++
              " (found potentially matching service \x27" ++ service ++
              "\x27 - " ++ ifThenElse v "vulnerable" "safe" ++ ")") b
        | none =>
          { b with unknownExploitability :=
              b.unknownExploitability ++
                ["CNAME for " ++ result.domain ++ " is: " ++ result.cname] }

/-- Sequential drain of a list of results by the single consumer
(src/main.go:150-154). -/
def processAll (fingerprints : List Fingerprint) (svc : ServiceMatcher) :
    List cnameResult → Buckets → Buckets
  | [], b => b
  | r :: rs, b =>
    processAll fingerprints svc rs (processCNAMEResult r fingerprints svc b)

/-- `queryAndSendCNAME` (src/main.go:185-194) as the result it hands to the
channel: `digOut = none` models `dig` exiting with an error, `some out` a
successful run with raw output `out`; an empty output also takes the error
branch, otherwise the output is space-trimmed. -/
def mkCnameResult (digOut : Option String) (domain : String) : cnameResult :=
  match digOut with
  | none => ⟨domain, "", true⟩
  | some out =>
    if out.data.length = 0 then ⟨domain, "", true⟩
    else ⟨domain, goTrimSpace out, false⟩

/-- `writeResults` (src/main.go:214-248) as the markdown text it writes:
one titled section per non-empty bucket, in source order, each item one
bulleted line; the `notFound` bucket is never read. -/
def writeResults (b : Buckets) : String :=
  (if b.isExploitable.length > 0 then
    "### Is Exploitable\n\n" ++
      String.join (b.isExploitable.map (fun item => "- " ++ item ++ "\n")) ++
      "\n"
   else "") ++
  (if b.notExploitable.length > 0 then
    "### Not Exploitable\n\n" ++
      String.join (b.notExploitable.map (fun item => "- " ++ item ++ "\n")) ++
      "\n"
   else "") ++
  (if b.unknownExploitability.length > 0 then
    "### Exploitability Unknown\n\n" ++
      String.join
        (b.unknownExploitability.map (fun item => "- " ++ item ++ "\n"))
   else "")

example : writeResults emptyBuckets = "" := by decide
example :
    mkCnameResult (some "shop.myshopify.com.\n") "a.test" =
      ⟨"a.test", "shop.myshopify.com.", false⟩ := by decide
example : mkCnameResult none "b.test" = ⟨"b.test", "", true⟩ := by decide

/-! ## Small-step model of `checkCNAMEs` (src/main.go:127-182)

One supervising goroutine reads candidates, acquires a semaphore slot
(`sem <- struct \x7b\x7d \x7b\x7d`, capacity 20) before launching each
worker, then `wg.Wait()`s, closes the buffered result channel (capacity
100) and immediately calls `writeResults` — without waiting for the single
consumer goroutine, which drains the channel with
`for result := range results`.  A worker holds its slot from launch until
its send into the channel has completed (the deferred release runs when
`queryAndSendCNAME` has returned). -/

def maxConcurrency : Nat := 20

def resultsBufferSize : Nat := 100

/-- The fixed inputs of one `checkCNAMEs` run: the candidate lines of the
subdomains file, the behaviour of `dig` per domain, one iteration order of
the loaded fingerprint map, and the (abstract) service fallback. -/
structure Config where
  candidates : List String
  resolver : String → Option String
  fingerprints : List Fingerprint
  svc : ServiceMatcher

/-- A snapshot of the run: candidates not yet launched, workers between
launch and their `dig` call, workers inside the call, workers whose call
returned but whose channel send is still pending, the channel buffer, the
channel's closed flag, whether the consumer's range loop has terminated,
the bucket slices, and whether `writeResults` has run and what it wrote. -/
structure PState where
  toLaunch : List String
  launched : List String
  inCall : List String
  pendingSend : List cnameResult
  queue : List cnameResult
  closed : Bool
  consumerDone : Bool
  buckets : Buckets
  reportWritten : Bool
  report : Option String

/-- Number of semaphore slots held: a slot is acquired at launch
(src/main.go:159) and released only after the worker's send has completed
(deferred release, src/main.go:164). -/
def semCount (s : PState) : Nat :=
  s.launched.length + s.inCall.length + s.pendingSend.length

def initState (cfg : Config) : PState :=
  { toLaunch := cfg.candidates, launched := [], inCall := [],
    pendingSend := [], queue := [], closed := false, consumerDone := false,
    buckets := emptyBuckets, reportWritten := false, report := none }

/-- One scheduler step of the `checkCNAMEs` goroutine system. -/
inductive Step (cfg : Config) : PState → PState → Prop
  /-- src/main.go:156-166: the supervisor reads the next candidate, blocks
  until a semaphore slot is free, and launches the worker goroutine. -/
  | launch {s : PState} {d : String} {ds : List String}
      (h : s.toLaunch = d :: ds) (hsem : semCount s < maxConcurrency) :
      Step cfg s { s with toLaunch := ds, launched := s.launched ++ [d] }
  /-- src/main.go:186: a launched worker reaches its `dig` call. -/
  | startCall {s : PState} (l₁ l₂ : List String) (d : String)
      (h : s.launched = l₁ ++ d :: l₂) :
      Step cfg s { s with launched := l₁ ++ l₂, inCall := s.inCall ++ [d] }
  /-- src/main.go:186-193: the `dig` call returns and the worker forms its
  single result, still holding its slot until the send completes. -/
  | finishCall {s : PState} (l₁ l₂ : List String) (d : String)
      (h : s.inCall = l₁ ++ d :: l₂) :
      Step cfg s { s with inCall := l₁ ++ l₂,
                          pendingSend :=
                            s.pendingSend ++
                              [mkCnameResult (cfg.resolver d) d] }
  /-- src/main.go:188,192: the send succeeds once the buffer has room; the
  deferred semaphore release and `wg.Done` then run. -/
  | send {s : PState} (p₁ p₂ : List cnameResult) (r : cnameResult)
      (h : s.pendingSend = p₁ ++ r :: p₂)
      (hroom : s.queue.length < resultsBufferSize) :
      Step cfg s { s with pendingSend := p₁ ++ p₂, queue := s.queue ++ [r] }
  /-- src/main.go:175-178: `wg.Wait()` returns once every worker is done
  and the scanner is exhausted; the supervisor closes the channel. -/
  | closeChan {s : PState} (h₁ : s.toLaunch = []) (h₂ : s.launched = [])
      (h₃ : s.inCall = []) (h₄ : s.pendingSend = [])
      (h₅ : s.closed = false) :
      Step cfg s { s with closed := true }
  /-- src/main.go:150-154: the consumer takes the next buffered result and
  classifies it into the buckets. -/
  | consume {s : PState} {r : cnameResult} {q : List cnameResult}
      (h : s.queue = r :: q) (hc : s.consumerDone = false) :
      Step cfg s { s with queue := q,
                          buckets :=
                            processCNAMEResult r cfg.fingerprints cfg.svc
                              s.buckets }
  /-- src/main.go:151: the consumer's range loop ends when the channel is
  closed and empty. -/
  | consumerExit {s : PState} (h₁ : s.closed = true) (h₂ : s.queue = [])
      (h₃ : s.consumerDone = false) :
      Step cfg s { s with consumerDone := true }
  /-- src/main.go:181: the supervisor calls `writeResults` right after
  `close(results)`; nothing makes it wait for the consumer. -/
  | writeReport {s : PState} (h₁ : s.closed = true)
      (h₂ : s.reportWritten = false) :
      Step cfg s { s with reportWritten := true,
                          report := some (writeResults s.buckets) }
  /-- src/main.go:181-182 with src/main.go:39-53: after `writeResults` the
  call chain returns to `main` and process exit terminates the consumer
  goroutine, whether or not it has drained the queue. -/
  | progExit {s : PState} (h₁ : s.reportWritten = true)
      (h₂ : s.consumerDone = false) :
      Step cfg s { s with consumerDone := true }

/-- States reachable by the goroutine system from the start of a run. -/
def Reach (cfg : Config) (s : PState) : Prop :=
  Relation.ReflTransGen (Step cfg) (initState cfg) s

/-! ## Lemmas about trimming and matching -/

theorem goHasSuffix_append_dot (s : String) :
    goHasSuffix (s ++ ".") "." = true := by
  simp only [goHasSuffix, String.data_append]
  exact List.isSuffixOf_iff_suffix.mpr (List.suffix_append s.data (".").data)

theorem goTrimSuffix_append_dot (s : String) :
    goTrimSuffix (s ++ ".") "." = s := by
  simp only [goTrimSuffix, goHasSuffix_append_dot, if_true, String.data_append]
  have hlen : (s.data ++ ['.']).length - (['.'] : List Char).length
      = s.data.length := by simp
  rw [hlen, List.take_left]

theorem goTrimSuffix_no_dot (s pat : String) (h : goHasSuffix s pat = false) :
    goTrimSuffix s pat = s := by
  simp [goTrimSuffix, h]

theorem scanPatterns_eq_any (c : String) (l : List String) :
    scanPatterns c l = l.any (fun p => goHasSuffix c p) := by
  induction l with
  | nil => rfl
  | cons p ps ih =>
    simp only [scanPatterns, List.any_cons, ih]
    cases goHasSuffix c p <;> simp

theorem scanFingerprints_of_no_match (c : String) (l : List Fingerprint)
    (h : ∀ fp ∈ l, scanPatterns c fp.cname = false) :
    scanFingerprints c l = (false, false) := by
  induction l with
  | nil => rfl
  | cons fp rest ih =>
    simp only [scanFingerprints, h fp (List.mem_cons_self fp rest), if_false]
    exact ih fun fp' h' => h fp' (List.mem_cons_of_mem fp h')

theorem scanFingerprints_fst_eq_any (c : String) (l : List Fingerprint) :
    (scanFingerprints c l).1 = l.any (fun fp => scanPatterns c fp.cname) := by
  induction l with
  | nil => rfl
  | cons fp rest ih =>
    by_cases h : scanPatterns c fp.cname = true <;>
      simp [scanFingerprints, h, ih]

/-- When every entry of `l` that matches carries the flag `v`, the scan
result is determined by whether any entry matches at all. -/
theorem scanFingerprints_of_agree (c : String) (v : Bool)
    (l : List Fingerprint)
    (h : ∀ fp ∈ l, scanPatterns c fp.cname = true → fp.vulnerable = v) :
    scanFingerprints c l =
      if l.any (fun fp => scanPatterns c fp.cname) then (true, v)
      else (false, false) := by
  induction l with
  | nil => rfl
  | cons fp rest ih =>
    by_cases hfp : scanPatterns c fp.cname = true
    · simp [scanFingerprints, hfp, List.any_cons,
        h fp (List.mem_cons_self fp rest) hfp]
    · simp only [scanFingerprints, hfp, if_false, List.any_cons,
        Bool.of_not_eq_true hfp, Bool.false_or]
      exact ih fun fp' h' => h fp' (List.mem_cons_of_mem fp h')

theorem any_eq_of_perm {α : Type} (l₁ l₂ : List α) (f : α → Bool)
    (h : l₁.Perm l₂) : l₁.any f = l₂.any f := by
  rcases hb : l₂.any f with _ | _
  · simp only [List.any_eq_false] at hb ⊢
    intro a ha; exact hb a (h.mem_iff.mp ha)
  · simp only [List.any_eq_true] at hb ⊢
    obtain ⟨a, ha, hf⟩ := hb; exact ⟨a, h.mem_iff.mpr ha, hf⟩

/-- Two iteration orders of the same fingerprint map classify a cname
identically as soon as all entries matching it agree on the verdict. -/
theorem isVulnerableCNAME_eq_of_perm_of_agree (c : String)
    (l₁ l₂ : List Fingerprint) (hperm : l₁.Perm l₂)
    (h : ∀ fp₁ ∈ l₁, ∀ fp₂ ∈ l₁,
      scanPatterns (goTrimSuffix c ".") fp₁.cname = true →
      scanPatterns (goTrimSuffix c ".") fp₂.cname = true →
      fp₁.vulnerable = fp₂.vulnerable) :
    isVulnerableCNAME c l₁ = isVulnerableCNAME c l₂ := by
  set t := goTrimSuffix c "." with ht
  by_cases hany : l₁.any (fun fp => scanPatterns t fp.cname) = true
  · obtain ⟨fp₀, hfp₀, hm₀⟩ := List.any_eq_true.mp hany
    have h₁ : ∀ fp ∈ l₁, scanPatterns t fp.cname = true →
        fp.vulnerable = fp₀.vulnerable :=
      fun fp hfp hm => h fp hfp fp₀ hfp₀ hm hm₀
    have h₂ : ∀ fp ∈ l₂, scanPatterns t fp.cname = true →
        fp.vulnerable = fp₀.vulnerable :=
      fun fp hfp hm => h₁ fp (hperm.mem_iff.mpr hfp) hm
    show scanFingerprints t l₁ = scanFingerprints t l₂
    rw [scanFingerprints_of_agree t fp₀.vulnerable l₁ h₁,
      scanFingerprints_of_agree t fp₀.vulnerable l₂ h₂,
      any_eq_of_perm l₁ l₂ _ hperm]
  · have hany₁ : l₁.any (fun fp => scanPatterns t fp.cname) = false :=
      Bool.of_not_eq_true hany
    have hany₂ : l₂.any (fun fp => scanPatterns t fp.cname) = false := by
      rw [← any_eq_of_perm l₁ l₂ _ hperm]; exact hany₁
    have hno₁ : ∀ fp ∈ l₁, scanPatterns t fp.cname = false :=
      fun fp hfp =>
        Bool.of_not_eq_true (List.any_eq_false.mp hany₁ fp hfp)
    have hno₂ : ∀ fp ∈ l₂, scanPatterns t fp.cname = false :=
      fun fp hfp =>
        Bool.of_not_eq_true (List.any_eq_false.mp hany₂ fp hfp)
    show scanFingerprints t l₁ = scanFingerprints t l₂
    rw [scanFingerprints_of_no_match t l₁ hno₁,
      scanFingerprints_of_no_match t l₂ hno₂]

/-- The classifier only looks at the store through `isVulnerableCNAME` and
the service fallback. -/
theorem processCNAMEResult_congr (r : cnameResult)
    (f₁ f₂ : List Fingerprint) (svc : ServiceMatcher) (b : Buckets)
    (hdir : isVulnerableCNAME r.cname f₁ = isVulnerableCNAME r.cname f₂)
    (hsvc : svc r.cname f₁ = svc r.cname f₂) :
    processCNAMEResult r f₁ svc b = processCNAMEResult r f₂ svc b := by
  unfold processCNAMEResult
  rw [hdir, hsvc]

/-! ## Lemmas about the untyped evaluator -/

theorem scanPatternsU_of_strings (c : String) (l : List GoVal)
    (h : l.all
      (fun v => match v with | GoVal.vStr _ => true | _ => false) = true) :
    scanPatternsU c l = some (scanPatterns c (l.filterMap asStr)) := by
  induction l with
  | nil => rfl
  | cons v rest ih =>
    rw [List.all_cons, Bool.and_eq_true] at h
    cases v with
    | vStr sv =>
      simp only [scanPatternsU, asStr, List.filterMap_cons, scanPatterns]
      by_cases hs : goHasSuffix c sv = true
      · simp [hs]
      · simp only [Bool.of_not_eq_true hs, if_false]
        exact ih h.2
    | vBool bv => cases h.1
    | vArr xs => cases h.1
    | vNum n => cases h.1
    | vNil => cases h.1

theorem scanFingerprintsU_of_wellFormed (c : String)
    (l : List (List (String × GoVal))) (h : l.all wellFormedEntry = true) :
    scanFingerprintsU c l = some (scanFingerprints c (l.map decodeEntry)) := by
  induction l with
  | nil => rfl
  | cons e rest ih =>
    rw [List.all_cons, Bool.and_eq_true] at h
    have he := h.1
    unfold wellFormedEntry at he
    rw [Bool.and_eq_true] at he
    cases hcn : lookupGo e "cname" with
    | vArr lst =>
      cases hv : lookupGo e "vulnerable" with
      | vBool bv =>
        have hstr :
            lst.all (fun v =>
              match v with | GoVal.vStr _ => true | _ => false) = true := by
          have := he.1; rw [hcn] at this; exact this
        have hde : decodeEntry e =
            { cname := lst.filterMap asStr, vulnerable := bv } := by
          simp [decodeEntry, hcn, hv]
        simp only [scanFingerprintsU, hcn, asArr,
          scanPatternsU_of_strings c lst hstr, List.map_cons, hde]
        by_cases hm : scanPatterns c (lst.filterMap asStr) = true
        · simp [hm, hv, asBool, scanFingerprints]
        · simp only [Bool.of_not_eq_true hm, scanFingerprints, if_false]
          exact ih h.2
      | vStr sv => rw [hv] at he; cases he.2
      | vArr xs => rw [hv] at he; cases he.2
      | vNum n => rw [hv] at he; cases he.2
      | vNil => rw [hv] at he; cases he.2
    | vStr sv => rw [hcn] at he; cases he.1
    | vBool bv => rw [hcn] at he; cases he.1
    | vNum n => rw [hcn] at he; cases he.1
    | vNil => rw [hcn] at he; cases he.1

/-! ## Invariants of the goroutine model -/

/-- The number of held semaphore slots never exceeds the capacity: only
`launch` acquires a slot, and it is guarded by `semCount s <
maxConcurrency`. -/
theorem reach_semCount_le (cfg : Config) (s : PState) (h : Reach cfg s) :
    semCount s ≤ maxConcurrency := by
  unfold Reach at h
  induction h with
  | refl => simp [initState, semCount, maxConcurrency]
  | tail hab hstep ih =>
    cases hstep with
    | launch h hsem =>
      simp only [semCount, maxConcurrency, List.length_append,
        List.length_cons, List.length_nil] at *
      omega
    | startCall l₁ l₂ d h =>
      have hl := congrArg List.length h
      simp only [semCount, maxConcurrency, List.length_append,
        List.length_cons, List.length_nil] at *
      omega
    | finishCall l₁ l₂ d h =>
      have hl := congrArg List.length h
      simp only [semCount, maxConcurrency, List.length_append,
        List.length_cons, List.length_nil] at *
      omega
    | send p₁ p₂ r h hroom =>
      have hl := congrArg List.length h
      simp only [semCount, maxConcurrency, List.length_append,
        List.length_cons, List.length_nil] at *
      omega
    | closeChan h₁ h₂ h₃ h₄ h₅ => exact ih
    | consume h hc => exact ih
    | consumerExit h₁ h₂ h₃ => exact ih
    | writeReport h₁ h₂ => exact ih
    | progExit h₁ h₂ => exact ih

/-- In a run over an empty candidate list nothing is ever launched, queued
or classified, and any written report is empty. -/
theorem reach_of_no_candidates (cfg : Config) (hc : cfg.candidates = [])
    (s : PState) (h : Reach cfg s) :
    s.toLaunch = [] ∧ s.launched = [] ∧ s.inCall = [] ∧
      s.pendingSend = [] ∧ s.queue = [] ∧ s.buckets = emptyBuckets ∧
      (s.report = none ∨ s.report = some "") := by
  unfold Reach at h
  induction h with
  | refl => exact ⟨hc, rfl, rfl, rfl, rfl, rfl, Or.inl rfl⟩
  | tail hab hstep ih =>
    obtain ⟨h1, h2, h3, h4, h5, h6, h7⟩ := ih
    cases hstep with
    | launch h hsem => rw [h1] at h; cases h
    | startCall l₁ l₂ d h => rw [h2] at h; exact absurd h (by simp)
    | finishCall l₁ l₂ d h => rw [h3] at h; exact absurd h (by simp)
    | send p₁ p₂ r h hroom => rw [h4] at h; exact absurd h (by simp)
    | closeChan h₁ h₂ h₃ h₄ h₅ => exact ⟨h1, h2, h3, h4, h5, h6, h7⟩
    | consume h hcns => rw [h5] at h; cases h
    | consumerExit h₁ h₂ h₃ => exact ⟨h1, h2, h3, h4, h5, h6, h7⟩
    | writeReport h₁ h₂ =>
      refine ⟨h1, h2, h3, h4, h5, h6, Or.inr ?_⟩
      show some (writeResults _) = some ""
      rw [h6]
      rfl
    | progExit h₁ h₂ => exact ⟨h1, h2, h3, h4, h5, h6, h7⟩

/-- A drained, closed, written-and-exited state admits no further step. -/
theorem terminal_state (cfg : Config) (s : PState) (h1 : s.toLaunch = [])
    (h2 : s.launched = []) (h3 : s.inCall = []) (h4 : s.pendingSend = [])
    (h5 : s.closed = true) (h6 : s.consumerDone = true)
    (h7 : s.reportWritten = true) : ∀ t, ¬ Step cfg s t := by
  intro t hstep
  cases hstep with
  | launch h hsem => rw [h1] at h; cases h
  | startCall l₁ l₂ d h => rw [h2] at h; exact absurd h (by simp)
  | finishCall l₁ l₂ d h => rw [h3] at h; exact absurd h (by simp)
  | send p₁ p₂ r h hroom => rw [h4] at h; exact absurd h (by simp)
  | closeChan g₁ g₂ g₃ g₄ g₅ => rw [h5] at g₅; cases g₅
  | consume h hc => rw [h6] at hc; cases hc
  | consumerExit g₁ g₂ g₃ => rw [h6] at g₃; cases g₃
  | writeReport g₁ g₂ => rw [h7] at g₂; cases g₂
  | progExit g₁ g₂ => rw [h6] at g₂; cases g₂

/-! ## Concrete runs exhibiting the missing consumer barrier -/

/-- A run with one candidate whose CNAME resolves and matches a vulnerable
fingerprint. -/
def cfgA : Config :=
  { candidates := ["a.test"],
    resolver := fun _ => some "shop.myshopify.com.",
    fingerprints := [⟨["myshopify.com"], true⟩],
    svc := fun _ _ => none }

/-- A run with one candidate whose `dig` invocation fails. -/
def cfgB : Config :=
  { candidates := ["b.test"],
    resolver := fun _ => none,
    fingerprints := [],
    svc := fun _ _ => none }

/-- The state of the `cfgA` run at the moment `writeResults` has executed
while the consumer goroutine has not yet been scheduled: the sole result is
still sitting in the channel buffer and the written report is empty. -/
def stateA : PState :=
  { toLaunch := [], launched := [], inCall := [], pendingSend := [],
    queue := [⟨"a.test", "shop.myshopify.com.", false⟩], closed := true,
    consumerDone := false, buckets := emptyBuckets, reportWritten := true,
    report := some "" }

theorem reach_stateA : Reach cfgA stateA :=
  Relation.ReflTransGen.head (Step.launch rfl (by decide))
    (Relation.ReflTransGen.head (Step.startCall [] [] "a.test" rfl)
    (Relation.ReflTransGen.head (Step.finishCall [] [] "a.test" rfl)
    (Relation.ReflTransGen.head
      (Step.send [] []
        (mkCnameResult (cfgA.resolver "a.test") "a.test") rfl (by decide))
    (Relation.ReflTransGen.head (Step.closeChan rfl rfl rfl rfl rfl)
    (Relation.ReflTransGen.head (Step.writeReport rfl rfl)
      Relation.ReflTransGen.refl)))))

/-- The terminal state of a `cfgB` schedule in which the consumer goroutine
is never scheduled between the channel close and process exit: the one
result is lost, no bucket entry was ever appended. -/
def stateB : PState :=
  { toLaunch := [], launched := [], inCall := [], pendingSend := [],
    queue := [⟨"b.test", "", true⟩], closed := true,
    consumerDone := true, buckets := emptyBuckets, reportWritten := true,
    report := some "" }

theorem reach_stateB : Reach cfgB stateB :=
  Relation.ReflTransGen.head (Step.launch rfl (by decide))
    (Relation.ReflTransGen.head (Step.startCall [] [] "b.test" rfl)
    (Relation.ReflTransGen.head (Step.finishCall [] [] "b.test" rfl)
    (Relation.ReflTransGen.head
      (Step.send [] []
        (mkCnameResult (cfgB.resolver "b.test") "b.test") rfl (by decide))
    (Relation.ReflTransGen.head (Step.closeChan rfl rfl rfl rfl rfl)
    (Relation.ReflTransGen.head (Step.writeReport rfl rfl)
    (Relation.ReflTransGen.head (Step.progExit rfl rfl)
      Relation.ReflTransGen.refl))))))

/-! ## Concrete data for the end-to-end scenario -/

/-- A service fallback that never matches. -/
def svcNone : ServiceMatcher := fun _ _ => none

/-- The resolver of the end-to-end scenario: `a.test` resolves to
`shop.myshopify.com.`, `b.test` fails. -/
def resolverC3 : String → Option String :=
  fun d => if d == "a.test" then some "shop.myshopify.com." else none

/-- The single-entry store of the end-to-end scenario. -/
def fpsC3 : List Fingerprint := [⟨["myshopify.com"], true⟩]

/-- The two results the workers hand to the channel in the end-to-end
scenario. -/
def resultsC3 : List cnameResult :=
  [mkCnameResult (resolverC3 "a.test") "a.test",
   mkCnameResult (resolverC3 "b.test") "b.test"]

/-- The entry of the malformed-store scenario: well-typed `"cname"` array,
non-boolean `"vulnerable"`. -/
def badEntryC10 : List (String × GoVal) :=
  [("cname", GoVal.vArr [GoVal.vStr "zzz"]),
   ("vulnerable", GoVal.vStr "yes")]

/-- A run with no candidates at all. -/
def cfgEmpty : Config :=
  { candidates := [], resolver := fun _ => none, fingerprints := [],
    svc := svcNone }

/-! ## Claims -/

/-- C1, counterexample: the claim says `isVulnerableCNAME` iterates the
fingerprint entries in load-time insertion order, so that for the store
loaded as `[entry(a.example, not vulnerable), entry(a.example, vulnerable)]`
every name ending in `a.example` classifies as not vulnerable.  The store is
a Go map, whose iteration order is unspecified: the reversed order is an
admissible iteration of the same map, and under it the same name classifies
as vulnerable. -/
theorem C1_counterexample :
    ¬ (∀ iter : List Fingerprint,
        iter.Perm [⟨["a.example"], false⟩, ⟨["a.example"], true⟩] →
        ∀ name : String,
          goHasSuffix (goTrimSuffix name ".") "a.example" = true →
          (isVulnerableCNAME name iter).2 = false) := by
  intro hclaim
  have h := hclaim [⟨["a.example"], true⟩, ⟨["a.example"], false⟩]
    (by decide) "x.a.example" (by decide)
  exact absurd h (by decide)

/-- C1, amended: `isVulnerableCNAME` returns the verdict of the FIRST entry
of the iteration sequence it is handed whose stored pattern the dot-trimmed
name ends with — but that sequence is the Go map's iteration order, which
is not fixed to load-time insertion order: for the two-entry store of the
claim, the two admissible orders classify `x.a.example` differently. -/
theorem C1_first_match_in_iteration_order :
    (∀ (c : String) (fp : Fingerprint) (rest : List Fingerprint),
        scanPatterns (goTrimSuffix c ".") fp.cname = true →
        isVulnerableCNAME c (fp :: rest) = (true, fp.vulnerable)) ∧
    (∀ (c : String) (fp : Fingerprint) (rest : List Fingerprint),
        scanPatterns (goTrimSuffix c ".") fp.cname = false →
        isVulnerableCNAME c (fp :: rest) = isVulnerableCNAME c rest) ∧
    isVulnerableCNAME "x.a.example"
      [⟨["a.example"], false⟩, ⟨["a.example"], true⟩] = (true, false) ∧
    isVulnerableCNAME "x.a.example"
      [⟨["a.example"], true⟩, ⟨["a.example"], false⟩] = (true, true) ∧
    List.Perm [(⟨["a.example"], false⟩ : Fingerprint), ⟨["a.example"], true⟩]
      [⟨["a.example"], true⟩, ⟨["a.example"], false⟩] := by
  refine ⟨?_, ?_, by decide, by decide, by decide⟩
  · intro c fp rest h
    show scanFingerprints (goTrimSuffix c ".") (fp :: rest) = _
    simp [scanFingerprints, h]
  · intro c fp rest h
    show scanFingerprints (goTrimSuffix c ".") (fp :: rest) =
      scanFingerprints (goTrimSuffix c ".") rest
    simp [scanFingerprints, h]

/-- C1, witness: the first-match clause evaluated at a concrete store. -/
theorem C1_witness :
    isVulnerableCNAME "a.b.example"
      [⟨["b.example"], true⟩, ⟨["zzz"], false⟩] = (true, true) :=
  C1_first_match_in_iteration_order.1 "a.b.example" ⟨["b.example"], true⟩
    [⟨["zzz"], false⟩] (by decide)

/-- C2: the claim says the result queue is closed only after every
candidate has handed its result to the queue (which holds: `closeChan`
requires all workers done), AND that the consumer has drained and
classified every queued result before `writeResults` begins.  The second
half is false: `checkCNAMEs` calls `writeResults` right after
`close(results)` with no synchronization on the consumer goroutine, so the
run `cfgA` reaches a state in which the report (empty!) is already written
while the sole result still sits unconsumed in the queue. -/
theorem C2_missing_consumer_barrier :
    Reach cfgA stateA ∧ stateA.reportWritten = true ∧
      stateA.closed = true ∧ stateA.consumerDone = false ∧
      stateA.queue = [⟨"a.test", "shop.myshopify.com.", false⟩] ∧
      stateA.report = some "" ∧ totalBuckets stateA.buckets = 0 :=
  ⟨reach_stateA, rfl, rfl, rfl, rfl, rfl, rfl⟩

/-- C3, counterexample: on the claim's end-to-end scenario the Exploitable
entry produced by `processCNAMEResult` renders the resolved target exactly
as the resolver returned it — `shop.myshopify.com.` with its trailing dot
(only the local copy inside `isVulnerableCNAME` is trimmed) — so the bucket
differs from the claimed
`["CNAME for a.test is: shop.myshopify.com (found matching fingerprint - vulnerable)"]`. -/
theorem C3_counterexample :
    (processAll fpsC3 svcNone resultsC3 emptyBuckets).isExploitable ≠
      ["CNAME for a.test is: shop.myshopify.com (found matching fingerprint - vulnerable)"] := by
  decide

/-- C3, amended: in the end-to-end scenario the Exploitable bucket is
`["CNAME for a.test is: shop.myshopify.com. (found matching fingerprint - vulnerable)"]`
(trailing dot kept) and the NoRecord bucket is
`["No CNAME record found for: b.test"]`, whatever the service fallback does
and in either processing order of the two results. -/
theorem C3_end_to_end_with_trailing_dot (svc : ServiceMatcher) :
    processAll fpsC3 svc resultsC3 emptyBuckets =
      { isExploitable :=
          ["CNAME for a.test is: shop.myshopify.com. (found matching fingerprint - vulnerable)"],
        notExploitable := [], unknownExploitability := [],
        notFound := ["No CNAME record found for: b.test"] } ∧
    processAll fpsC3 svc resultsC3.reverse emptyBuckets =
      { isExploitable :=
          ["CNAME for a.test is: shop.myshopify.com. (found matching fingerprint - vulnerable)"],
        notExploitable := [], unknownExploitability := [],
        notFound := ["No CNAME record found for: b.test"] } :=
  ⟨rfl, rfl⟩

/-- C4: `isVulnerableCNAME` trims exactly one trailing root-zone dot and
then tests exact string-suffix containment: appending one dot to any name
leaves the scan of the undotted name (and a name not ending in a dot is
scanned as is); `shop.myshopify.com.` matches pattern `myshopify.com`; and
when no entry's pattern is a suffix of the trimmed name the result is
`(false, false)`, in every iteration order. -/
theorem C4_trim_and_exact_suffix :
    (∀ (s : String) (fps : List Fingerprint),
        isVulnerableCNAME (s ++ ".") fps = scanFingerprints s fps) ∧
    (∀ (s : String) (fps : List Fingerprint), goHasSuffix s "." = false →
        isVulnerableCNAME s fps = scanFingerprints s fps) ∧
    isVulnerableCNAME "shop.myshopify.com." [⟨["myshopify.com"], true⟩] =
      (true, true) ∧
    (∀ (name : String) (fps : List Fingerprint),
        (∀ fp ∈ fps, ∀ p ∈ fp.cname,
          goHasSuffix (goTrimSuffix name ".") p = false) →
        isVulnerableCNAME name fps = (false, false)) := by
  refine ⟨?_, ?_, by decide, ?_⟩
  · intro s fps
    show scanFingerprints (goTrimSuffix (s ++ ".") ".") fps = _
    rw [goTrimSuffix_append_dot]
  · intro s fps h
    show scanFingerprints (goTrimSuffix s ".") fps = _
    rw [goTrimSuffix_no_dot s "." h]
  · intro name fps h
    apply scanFingerprints_of_no_match
    intro fp hfp
    rw [scanPatterns_eq_any]
    exact List.any_eq_false.mpr fun p hp => by simp [h fp hfp p hp]

/-- C4, witness: the clauses with hypotheses evaluated concretely. -/
theorem C4_witness :
    isVulnerableCNAME ("host.example" ++ ".") [] = (false, false) ∧
    isVulnerableCNAME "plain.example" [⟨["other"], true⟩] =
      scanFingerprints "plain.example" [⟨["other"], true⟩] ∧
    isVulnerableCNAME "host.example" [⟨["zzz.io"], true⟩] = (false, false) :=
  ⟨(C4_trim_and_exact_suffix.1 "host.example" []).trans rfl,
   C4_trim_and_exact_suffix.2.1 "plain.example" [⟨["other"], true⟩]
     (by decide),
   C4_trim_and_exact_suffix.2.2.2 "host.example" [⟨["zzz.io"], true⟩]
     (by decide)⟩

/-- C5: a result carrying a failure or an empty resolved name always
classifies as NoRecord: `processCNAMEResult` appends exactly the line
`No CNAME record found for: <domain>` to the `notFound` bucket and leaves
the other three buckets unchanged; the right-hand side mentions neither the
store nor the service fallback, so the store is never consulted and Unknown
is never assigned. -/
theorem C5_failure_is_norecord (r : cnameResult) (fps : List Fingerprint)
    (svc : ServiceMatcher) (b : Buckets)
    (h : r.hasErr = true ∨ r.cname = "") :
    processCNAMEResult r fps svc b =
      { b with notFound :=
          b.notFound ++ ["No CNAME record found for: " ++ r.domain] } := by
  unfold processCNAMEResult
  rcases h with h | h <;> simp [h]

/-- C5, witness: the failed `b.test` result evaluated concretely. -/
theorem C5_witness :
    processCNAMEResult ⟨"b.test", "", true⟩ [] svcNone emptyBuckets =
      { emptyBuckets with
          notFound := ["No CNAME record found for: b.test"] } :=
  C5_failure_is_norecord ⟨"b.test", "", true⟩ [] svcNone emptyBuckets
    (Or.inl rfl)

/-- C6: in every reachable state of every run, at most
`maxConcurrency = 20` workers are inside their resolution call: a slot of
the capacity-20 semaphore is held from before the call until after its
completion, on success and failure alike. -/
theorem C6_concurrency_bound (cfg : Config) (s : PState)
    (h : Reach cfg s) :
    s.inCall.length ≤ maxConcurrency ∧ maxConcurrency = 20 := by
  refine ⟨?_, rfl⟩
  have hs := reach_semCount_le cfg s h
  unfold semCount at hs
  omega

/-- C6, witness: the bound at a concrete reachable state. -/
theorem C6_witness :
    (initState cfgB).inCall.length ≤ maxConcurrency :=
  (C6_concurrency_bound cfgB (initState cfgB)
    Relation.ReflTransGen.refl).1

/-- C7: the claim says every submitted candidate yields exactly one result
and exactly one bucket entry — no loss.  Production does behave (the
`cfgB` worker hands exactly its one result to the queue), but the run can
terminate — no step applies any more — with the report written and ZERO
bucket entries appended for its one candidate: process exit kills the
consumer goroutine before it drains the buffered queue. -/
theorem C7_result_loss :
    Reach cfgB stateB ∧ (∀ t, ¬ Step cfgB stateB t) ∧
      totalBuckets stateB.buckets = 0 ∧ cfgB.candidates.length = 1 ∧
      stateB.queue = [⟨"b.test", "", true⟩] :=
  ⟨reach_stateB, terminal_state cfgB stateB rfl rfl rfl rfl rfl rfl rfl,
    rfl, rfl, rfl⟩

/-- C8: the rendered report never reads the NoRecord bucket; the sections
appear in the order Is Exploitable, Not Exploitable, Exploitability
Unknown, one titled section per non-empty bucket with one bulleted line
per item (shown on a fully concrete bucket state); and in a run over an
empty candidate list every reachable state has empty buckets and any
written report is the empty document. -/
theorem C8_report_rendering :
    (∀ (b : Buckets) (nf : List String),
        writeResults { b with notFound := nf } = writeResults b) ∧
    writeResults
      { isExploitable := ["e1"], notExploitable := ["n1", "n2"],
        unknownExploitability := ["u1"], notFound := ["dropped"] } =
      "### Is Exploitable\n\n- e1\n\n### Not Exploitable\n\n- n1\n- n2\n\n" ++
        "### Exploitability Unknown\n\n- u1\n" ∧
    (∀ cfg : Config, cfg.candidates = [] → ∀ s : PState, Reach cfg s →
        s.buckets = emptyBuckets ∧
          (s.report = none ∨ s.report = some "")) := by
  refine ⟨?_, by decide, ?_⟩
  · intro b nf; rfl
  · intro cfg hc s h
    have hq := reach_of_no_candidates cfg hc s h
    exact ⟨hq.2.2.2.2.2.1, hq.2.2.2.2.2.2⟩

/-- C8, witness: the empty-run clause at the initial state of `cfgEmpty`,
and the NoRecord-independence clause at a concrete bucket state. -/
theorem C8_witness :
    ((initState cfgEmpty).buckets = emptyBuckets ∧
      ((initState cfgEmpty).report = none ∨
        (initState cfgEmpty).report = some "")) ∧
    writeResults { emptyBuckets with notFound := ["n"] } =
      writeResults emptyBuckets :=
  ⟨C8_report_rendering.2.2 cfgEmpty rfl (initState cfgEmpty)
      Relation.ReflTransGen.refl,
   C8_report_rendering.1 emptyBuckets ["n"]⟩

/-- C9, counterexample: two runs of `processCNAMEResult` on the same
result, the same buckets and the same loaded store can disagree — the
reversed entry list is an admissible iteration order of the same Go map
(they are permutations), yet the two orders put the entry in different
buckets. -/
theorem C9_counterexample :
    List.Perm [(⟨["b.example"], false⟩ : Fingerprint), ⟨["b.example"], true⟩]
      [⟨["b.example"], true⟩, ⟨["b.example"], false⟩] ∧
    processCNAMEResult ⟨"h.test", "cdn.b.example", false⟩
        [⟨["b.example"], false⟩, ⟨["b.example"], true⟩] svcNone
        emptyBuckets ≠
      processCNAMEResult ⟨"h.test", "cdn.b.example", false⟩
        [⟨["b.example"], true⟩, ⟨["b.example"], false⟩] svcNone
        emptyBuckets :=
  ⟨by decide, by decide⟩

/-- C9, amended: `processCNAMEResult` is a pure function of the result, the
buckets, the iteration order and the service fallback; two runs over
permuted iteration orders of the same store yield identical bucket entries
whenever all entries matching the trimmed name agree on the verdict (in
particular when at most one matches) and the service fallback answers both
orders alike — but not in general, as the iteration order of a Go map may
differ between the two runs. -/
theorem C9_deterministic_modulo_iteration_order (r : cnameResult)
    (iter₁ iter₂ : List Fingerprint) (svc : ServiceMatcher) (b : Buckets)
    (hperm : iter₁.Perm iter₂)
    (hagree : ∀ fp₁ ∈ iter₁, ∀ fp₂ ∈ iter₁,
      scanPatterns (goTrimSuffix r.cname ".") fp₁.cname = true →
      scanPatterns (goTrimSuffix r.cname ".") fp₂.cname = true →
      fp₁.vulnerable = fp₂.vulnerable)
    (hsvc : svc r.cname iter₁ = svc r.cname iter₂) :
    processCNAMEResult r iter₁ svc b = processCNAMEResult r iter₂ svc b :=
  processCNAMEResult_congr r iter₁ iter₂ svc b
    (isVulnerableCNAME_eq_of_perm_of_agree r.cname iter₁ iter₂ hperm hagree)
    hsvc

/-- C9, witness: determinism at a concrete single-entry store. -/
theorem C9_witness :
    processCNAMEResult ⟨"w.test", "app.x.io", false⟩ [⟨["x.io"], true⟩]
        svcNone emptyBuckets =
      processCNAMEResult ⟨"w.test", "app.x.io", false⟩ [⟨["x.io"], true⟩]
        svcNone emptyBuckets :=
  C9_deterministic_modulo_iteration_order ⟨"w.test", "app.x.io", false⟩
    [⟨["x.io"], true⟩] [⟨["x.io"], true⟩] svcNone emptyBuckets
    (List.Perm.refl _) (by decide) rfl

/-- C10, counterexample: the claim says any store containing an entry with
a non-boolean `"vulnerable"` makes classification panic; but the assertion
`fingerprint["vulnerable"].(bool)` only runs when that entry is the first
match, so a store whose malformed entry never matches the queried name
classifies normally: `badEntryC10` has `"vulnerable"` bound to a string,
yet the scan returns `(false, false)` without panicking. -/
theorem C10_counterexample :
    asBool (lookupGo badEntryC10 "vulnerable") = none ∧
    isVulnerableCNAMEU "shop.example" [badEntryC10] = some (false, false) :=
  ⟨by decide, by decide⟩

/-- C10, amended: on stores whose every entry is well-shaped (`"cname"` an
array of strings, `"vulnerable"` a bool) the untyped evaluator never panics
and agrees with the typed scan; the unchecked assertions panic exactly when
evaluated: a missing or non-array `"cname"` when the entry is visited, a
non-string list element when it is scanned before a match, a non-boolean
`"vulnerable"` when that entry is the first match. -/
theorem C10_shape_precondition :
    (∀ (c : String) (fps : List (List (String × GoVal))),
        fps.all wellFormedEntry = true →
        isVulnerableCNAMEU c fps =
          some (isVulnerableCNAME c (fps.map decodeEntry))) ∧
    isVulnerableCNAMEU "x" [[("vulnerable", GoVal.vBool true)]] = none ∧
    isVulnerableCNAMEU "x"
      [[("cname", GoVal.vStr "a"), ("vulnerable", GoVal.vBool true)]] =
      none ∧
    isVulnerableCNAMEU "x.a"
      [[("cname", GoVal.vArr [GoVal.vNum 1, GoVal.vStr "a"]),
        ("vulnerable", GoVal.vBool true)]] = none ∧
    isVulnerableCNAMEU "x.a"
      [[("cname", GoVal.vArr [GoVal.vStr "a"]),
        ("vulnerable", GoVal.vStr "yes")]] = none := by
  refine ⟨?_, by decide, by decide, by decide, by decide⟩
  intro c fps h
  exact scanFingerprintsU_of_wellFormed (goTrimSuffix c ".") fps h

/-- C10, witness: the well-shapedness clause at a concrete store. -/
theorem C10_witness :
    isVulnerableCNAMEU "shop.myshopify.com."
      [[("cname", GoVal.vArr [GoVal.vStr "myshopify.com"]),
        ("vulnerable", GoVal.vBool true)]] = some (true, true) :=
  (C10_shape_precondition.1 "shop.myshopify.com."
    [[("cname", GoVal.vArr [GoVal.vStr "myshopify.com"]),
      ("vulnerable", GoVal.vBool true)]] (by decide)).trans rfl
